import Mathlib

/-!
Verification of the `openfactory-virtual-assets` temperature-controller
stack: a shallow embedding in Lean 4 of the discrete PID controller
(`src/virtual_assets/temp_controller/src/pid.py`), the thermal plant
models (`plant.py`), the IMC autotuning rules (`autotune.py`) and the
over-temperature alarm decision of the orchestrator loop
(`temp_controller.py`), together with theorems settling the spec's
claims about them.

Numbers are modelled as rationals (`ℚ`); Python's `ZeroDivisionError`
and `ValueError` are modelled by `Except String` results.  Where Python
mutates part of an object before raising, the embedding returns the
partially-updated state alongside the error, mirroring the interpreter.
-/

namespace VirtualAssets

/-- State of `pid.PIDController`.  The Python getters/setters for the
underscore-prefixed configuration attributes are identities, so each
configuration attribute is modelled as a single field.  `integral` and
`last_error` are the plain attributes set in `__init__` and read/written
by `compute`.  The fields `attr_integral` and `attr_prev_error` model
the Python attributes `_integral` and `_prev_error`: they are written
only by `reset()` (lines 181-182) and read by no method; `none` means
the attribute does not exist on the object yet. -/
structure PIDController where
  setpoint : ℚ
  kp : ℚ
  ki : ℚ
  kd : ℚ
  prop_enabled : Bool
  integ_enabled : Bool
  deriv_enabled : Bool
  windup_limit : ℚ
  output_min : ℚ
  output_max : ℚ
  integral : ℚ
  last_error : Option ℚ
  attr_integral : Option ℚ
  attr_prev_error : Option ℚ
  deriving Repr, DecidableEq

namespace PIDController

/-- `PIDController.__init__` (pid.py lines 23-63): stores the ten
configuration arguments and initialises `integral = 0.0`,
`last_error = None`.  The attributes `_integral` and `_prev_error` do
not exist yet. -/
def init (setpoint kp ki kd : ℚ) (prop_enabled integ_enabled deriv_enabled : Bool)
    (windup_limit output_min output_max : ℚ) : PIDController :=
  { setpoint := setpoint
    kp := kp
    ki := ki
    kd := kd
    prop_enabled := prop_enabled
    integ_enabled := integ_enabled
    deriv_enabled := deriv_enabled
    windup_limit := windup_limit
    output_min := output_min
    output_max := output_max
    integral := 0
    last_error := none
    attr_integral := none
    attr_prev_error := none }

/-- `PIDController` constructed with all default arguments
(`setpoint=0, kp=ki=kd=0, prop_enabled=True, integ_enabled=True,
deriv_enabled=False, windup_limit=100, output_min=0, output_max=100`). -/
def mkDefault : PIDController :=
  init 0 0 0 0 true true false 100 0 100

/-- Python error message produced by dividing a float by zero. -/
def zeroDivMsg : String := "ZeroDivisionError: float division by zero"

/-- `PIDController.compute(measured, dt)` (pid.py lines 145-171).
Returns the result (`Except.ok output`, or `Except.error` when the
derivative division raises `ZeroDivisionError` at line 168) together
with the state of the object after the call.  When the division raises,
lines 161-164 have already updated and clamped `integral`, while line
170 (`last_error = error`) has not run yet. -/
def compute (s : PIDController) (measured dt : ℚ) : Except String ℚ × PIDController :=
  let error := s.setpoint - measured
  let P := if s.prop_enabled then s.kp * error else 0
  let integral1 :=
    if s.integ_enabled then
      max (min (s.integral + error * dt) s.windup_limit) (-s.windup_limit)
    else s.integral
  let I := if s.integ_enabled then s.ki * integral1 else 0
  if s.deriv_enabled then
    match s.last_error with
    | some le =>
      if dt = 0 then
        (Except.error zeroDivMsg, { s with integral := integral1 })
      else
        let D := s.kd * (error - le) / dt
        (Except.ok (max s.output_min (min s.output_max (P + I + D))),
          { s with integral := integral1, last_error := some error })
    | none =>
      (Except.ok (max s.output_min (min s.output_max (P + I + 0))),
        { s with integral := integral1, last_error := some error })
  else
    (Except.ok (max s.output_min (min s.output_max (P + I + 0))),
      { s with integral := integral1, last_error := some error })

/-- `PIDController.reset()` (pid.py lines 173-182): assigns
`self._integral = 0.0` and `self._prev_error = 0.0`.  These attribute
names differ from `integral` and `last_error`, so the assignments
create (or overwrite) two attributes no other method reads. -/
def reset (s : PIDController) : PIDController :=
  { s with attr_integral := some 0, attr_prev_error := some 0 }

/-- `PIDController.set_output_limits` (pid.py lines 184-193). -/
def set_output_limits (s : PIDController) (omin omax : ℚ) : PIDController :=
  { s with output_min := omin, output_max := omax }

/-- The `windup_limit` property setter (pid.py lines 125-127): stores
the written value unchanged. -/
def windup_limit_set (s : PIDController) (val : ℚ) : PIDController :=
  { s with windup_limit := val }

/-- `PIDController.set_windup_limit(limit)` (pid.py lines 195-202):
assigns `abs(limit)` through the `windup_limit` property. -/
def set_windup_limit (s : PIDController) (limit : ℚ) : PIDController :=
  windup_limit_set s |limit|

/-- Apply a sequence of `compute` calls (each a `(measured, dt)` pair),
threading the controller state; each call's state effect is taken even
when the call raises, as the Python object outlives an exception. -/
def computeSeq (s : PIDController) (calls : List (ℚ × ℚ)) : PIDController :=
  calls.foldl (fun st c => (compute st c.1 c.2).2) s

end PIDController

/-- State of `plant.FirstOrderPlant` (plant.py lines 15-67): gain `K`,
time constant `tau`, state `x`. -/
structure FirstOrderPlant where
  K : ℚ
  tau : ℚ
  x : ℚ
  deriving Repr, DecidableEq

/-- `FirstOrderPlant.update(u, dt)` (plant.py lines 54-67):
`dx = dt / tau * (-x + K*u); x += dx; return x`.  The division raises
`ZeroDivisionError` when `tau = 0`, leaving the state unchanged. -/
def FirstOrderPlant.update (p : FirstOrderPlant) (u dt : ℚ) :
    Except String ℚ × FirstOrderPlant :=
  if p.tau = 0 then (Except.error PIDController.zeroDivMsg, p)
  else
    let dx := dt / p.tau * (-p.x + p.K * u)
    let x1 := p.x + dx
    (Except.ok x1, { p with x := x1 })

/-- State of `plant.ThermalPlant` (plant.py lines 70-127): the inherited
`FirstOrderPlant` fields plus `ambient` and `temp`. -/
structure ThermalPlant where
  K : ℚ
  tau : ℚ
  x : ℚ
  ambient : ℚ
  temp : ℚ
  deriving Repr, DecidableEq

namespace ThermalPlant

/-- `ThermalPlant.__init__` (plant.py lines 95-113): calls the base
constructor with `x0 = initial_temp - ambient`. -/
def init (initial_temp ambient tau heater_gain : ℚ) : ThermalPlant :=
  { K := heater_gain, tau := tau, x := initial_temp - ambient
    ambient := ambient, temp := initial_temp }

/-- `ThermalPlant.update(control_output, dt)` (plant.py lines 115-127):
`temp = ambient + super().update(control_output, dt)`.  If the base
update raises, nothing has been mutated yet. -/
def update (p : ThermalPlant) (control_output dt : ℚ) :
    Except String ℚ × ThermalPlant :=
  match FirstOrderPlant.update ⟨p.K, p.tau, p.x⟩ control_output dt with
  | (Except.error e, _) => (Except.error e, p)
  | (Except.ok x1, _) =>
    let t := p.ambient + x1
    (Except.ok t, { p with x := x1, temp := t })

end ThermalPlant

/-- State of `plant.TwoPT1ThermalPlant` (plant.py lines 130-215). -/
structure TwoPT1ThermalPlant where
  temp : ℚ
  ambient : ℚ
  tau_p : ℚ
  K_p : ℚ
  tau_h : ℚ
  K_h : ℚ
  heater : ℚ
  deriving Repr, DecidableEq

namespace TwoPT1ThermalPlant

/-- `TwoPT1ThermalPlant.__init__` (plant.py lines 167-194): stores the
parameters and starts with `heater = 0.0`. -/
def init (initial_temp ambient tau_p K_p tau_h K_h : ℚ) : TwoPT1ThermalPlant :=
  { temp := initial_temp, ambient := ambient, tau_p := tau_p, K_p := K_p
    tau_h := tau_h, K_h := K_h, heater := 0 }

/-- `TwoPT1ThermalPlant.update(u, dt)` (plant.py lines 196-215): heater
first-order step, then plant first-order step.  If `tau_p = 0` the
second division raises after the heater state was already updated. -/
def update (p : TwoPT1ThermalPlant) (u dt : ℚ) :
    Except String ℚ × TwoPT1ThermalPlant :=
  if p.tau_h = 0 then (Except.error PIDController.zeroDivMsg, p)
  else
    let heater1 := p.heater + dt / p.tau_h * (-p.heater + p.K_h * u)
    if p.tau_p = 0 then
      (Except.error PIDController.zeroDivMsg, { p with heater := heater1 })
    else
      let temp1 := p.temp + dt / p.tau_p * (-(p.temp - p.ambient) + p.K_p * heater1)
      (Except.ok temp1, { p with heater := heater1, temp := temp1 })

end TwoPT1ThermalPlant

/-- Python error message of the `ValueError` raised by both autotuning
functions (autotune.py lines 98 and 139). -/
def valueErrMsg : String := "ValueError: Invalid plant parameters for tuning"

/-- `autotune.autotune_pi_from_plant(plant, aggressiveness)`
(autotune.py lines 33-107).  Reads `plant.K` and `plant.tau`, raises
`ValueError` when `K <= 0 or tau <= 0`, computes `lam = tau *
aggressiveness` and returns `(tau/(K*lam), 1/lam, 0)`.  The divisions
at lines 103-104 raise `ZeroDivisionError` when their denominator is
zero (the `K*lam` one is evaluated first). -/
def autotune_pi_from_plant (plant : FirstOrderPlant) (aggressiveness : ℚ) :
    Except String (ℚ × ℚ × ℚ) :=
  let K := plant.K
  let tau := plant.tau
  if K ≤ 0 ∨ tau ≤ 0 then Except.error valueErrMsg
  else
    let lam := tau * aggressiveness
    if K * lam = 0 then Except.error PIDController.zeroDivMsg
    else if lam = 0 then Except.error PIDController.zeroDivMsg
    else Except.ok (tau / (K * lam), 1 / lam, 0)

/-- `autotune.autotune_pid_from_two_pt1(plant, aggressiveness)`
(autotune.py lines 110-149).  `K = K_h * K_p`; raises `ValueError` when
`K <= 0 or tau_h <= 0 or tau_p <= 0`; `lam = aggressiveness *
(tau_h + tau_p)`; returns `((tau_h+tau_p)/(K*lam), 1/lam,
(tau_h*tau_p)/(tau_h+tau_p))`.  The divisions at lines 145-147 raise
`ZeroDivisionError` on a zero denominator, in evaluation order. -/
def autotune_pid_from_two_pt1 (plant : TwoPT1ThermalPlant) (aggressiveness : ℚ) :
    Except String (ℚ × ℚ × ℚ) :=
  let K := plant.K_h * plant.K_p
  let tau1 := plant.tau_h
  let tau2 := plant.tau_p
  if K ≤ 0 ∨ tau1 ≤ 0 ∨ tau2 ≤ 0 then Except.error valueErrMsg
  else
    let lam := aggressiveness * (tau1 + tau2)
    if K * lam = 0 then Except.error PIDController.zeroDivMsg
    else if lam = 0 then Except.error PIDController.zeroDivMsg
    else if tau1 + tau2 = 0 then Except.error PIDController.zeroDivMsg
    else Except.ok ((tau1 + tau2) / (K * lam), 1 / lam, (tau1 * tau2) / (tau1 + tau2))

/-- The writable PID parameters monitored by the orchestrator's OPC UA
subscription (temp_controller.py lines 235-239). -/
inductive PIDParam where
  | setpoint | kp | ki | kd
  | prop_enabled | integ_enabled | deriv_enabled
  | windup | output_min | output_max
  deriving Repr, DecidableEq

/-- Value carried by an OPC UA data change: the numeric parameters are
floats, the enable flags are booleans. -/
inductive OPCValue where
  | num (q : ℚ)
  | flag (b : Bool)
  deriving Repr, DecidableEq

/-- `PIDSubscriptionHandler.datachange_notification`
(temp_controller.py lines 72-105): assigns the new value to the
attribute of the `PIDController` matching the changed node.  The
`windup` node is written through the `windup_limit` property setter
(line 99).  A value of the wrong kind for the parameter leaves the
state unchanged (the handler swallows exceptions). -/
def datachange (s : PIDController) (param : PIDParam) (val : OPCValue) : PIDController :=
  match param, val with
  | .setpoint, .num v => { s with setpoint := v }
  | .kp, .num v => { s with kp := v }
  | .ki, .num v => { s with ki := v }
  | .kd, .num v => { s with kd := v }
  | .prop_enabled, .flag b => { s with prop_enabled := b }
  | .integ_enabled, .flag b => { s with integ_enabled := b }
  | .deriv_enabled, .flag b => { s with deriv_enabled := b }
  | .windup, .num v => s.windup_limit_set v
  | .output_min, .num v => { s with output_min := v }
  | .output_max, .num v => { s with output_max := v }
  | _, _ => s

/-- Publish-tick gate of the orchestrator loop (temp_controller.py line
262): OPC UA nodes are updated when `now >= next_opcua_update`. -/
def publishTick (now next_opcua_update : ℚ) : Bool :=
  next_opcua_update ≤ now

/-- Over-temperature check inside the publish block (temp_controller.py
line 267): the alarm is triggered when `new_temp > pid.setpoint + 5.0`. -/
def overtempCheck (new_temp setpoint : ℚ) : Bool :=
  setpoint + 5 < new_temp

/-- Whether one iteration of the orchestrator loop triggers the
over-temperature alarm (temp_controller.py lines 262-269): only inside
a publish tick, and exactly when the temperature exceeds the setpoint
by more than the fixed 5-degree margin. -/
def alarmTriggered (now next_opcua_update new_temp setpoint : ℚ) : Bool :=
  publishTick now next_opcua_update && overtempCheck new_temp setpoint

/-- The two-PT1 plant the orchestrator builds when every environment
variable is left at its default (temp_controller.py lines 171-188). -/
def defaultTwoPT1 : TwoPT1ThermalPlant :=
  TwoPT1ThermalPlant.init 22 20 10 (1/2) 1 100

/-- Controller with `setpoint = 1`, derivative gain `kd = 1`, only the
integral and derivative terms enabled, and symmetric output limits:
exercises the interaction of `compute` and `reset`. -/
def demoController : PIDController :=
  PIDController.init 1 0 0 1 false true true 100 (-100) 100

/-- Controller whose windup limit was set to `-1` (reachable through
the `windup_limit` property setter, which stores the raw value). -/
def negWindupController : PIDController :=
  PIDController.init 1 0 0 0 true true false (-1) 0 100

/-- Controller whose output limits are inverted
(`output_min = 1 > 0 = output_max`), as `set_output_limits` and the
OPC UA write path accept without checking. -/
def invalidLimitsController : PIDController :=
  PIDController.init 0 0 0 0 true true false 100 1 0

namespace PIDController

lemma compute_snd_integ_enabled (s : PIDController) (m dt : ℚ) :
    ((s.compute m dt).2).integ_enabled = s.integ_enabled := by
  unfold compute
  cases hd : s.deriv_enabled <;> cases hl : s.last_error <;>
    simp [hd, hl] <;> split_ifs <;> rfl

lemma compute_snd_windup_limit (s : PIDController) (m dt : ℚ) :
    ((s.compute m dt).2).windup_limit = s.windup_limit := by
  unfold compute
  cases hd : s.deriv_enabled <;> cases hl : s.last_error <;>
    simp [hd, hl] <;> split_ifs <;> rfl

lemma compute_snd_integral (s : PIDController) (m dt : ℚ) :
    ((s.compute m dt).2).integral =
      if s.integ_enabled then
        max (min (s.integral + (s.setpoint - m) * dt) s.windup_limit) (-s.windup_limit)
      else s.integral := by
  unfold compute
  cases hd : s.deriv_enabled <;> cases hl : s.last_error <;>
    simp [hd, hl] <;> split_ifs <;> rfl

lemma compute_fst_shape (s : PIDController) (m dt out : ℚ)
    (hok : (s.compute m dt).1 = Except.ok out) :
    ∃ u, out = max s.output_min (min s.output_max u) := by
  cases hd : s.deriv_enabled
  case false =>
    simp [compute, hd] at hok
    exact ⟨_, hok.symm⟩
  case true =>
    cases hl : s.last_error
    case none =>
      simp [compute, hd, hl] at hok
      exact ⟨_, hok.symm⟩
    case some le =>
      by_cases hdt : dt = 0
      · simp [compute, hd, hl, hdt] at hok
      · simp [compute, hd, hl, hdt] at hok
        exact ⟨_, hok.symm⟩

/-- Single `compute` step with the integral term enabled and a
nonnegative windup limit leaves the accumulator within the limit. -/
lemma compute_integral_bound (s : PIDController) (m dt : ℚ)
    (hi : s.integ_enabled = true) (hw : 0 ≤ s.windup_limit) :
    |((s.compute m dt).2).integral| ≤ s.windup_limit := by
  rw [compute_snd_integral, hi, if_pos rfl, abs_le]
  refine ⟨le_max_right _ _, max_le (min_le_right _ _) (by linarith)⟩

lemma computeSeq_cons (s : PIDController) (c : ℚ × ℚ) (cs : List (ℚ × ℚ)) :
    s.computeSeq (c :: cs) = ((s.compute c.1 c.2).2).computeSeq cs := rfl

end PIDController

lemma zeroDiv_ne_valueErr : PIDController.zeroDivMsg ≠ valueErrMsg := by decide

/-- C1: pid.py's `reset()` (lines 181-182) assigns `self._integral` and
`self._prev_error`, two attributes `compute` never reads, while the
memory `compute` reads is `self.integral` and `self.last_error` (lines
161-170).  Concretely: after a `compute` call that left `integral = 1`
and `last_error = some 1`, `reset()` leaves both values in place and
merely creates the two dead attributes, so it does not clear the memory
read by `compute` as the claim requires. -/
theorem reset_leaves_compute_memory_unchanged :
    ((demoController.compute 0 1).2.reset).integral = 1
    ∧ ((demoController.compute 0 1).2.reset).last_error = some 1
    ∧ ((demoController.compute 0 1).2.reset).attr_integral = some 0
    ∧ ((demoController.compute 0 1).2.reset).attr_prev_error = some 0 := by
  refine ⟨?_, ?_, ?_, ?_⟩ <;>
    norm_num [demoController, negWindupController, invalidLimitsController, PIDController.mkDefault, PIDController.init, PIDController.compute, PIDController.reset, PIDController.computeSeq, max_def, min_def]

/-- C2: the first `compute` after construction does contribute a zero
derivative term (`last_error` is `None`, output `0` here since the P
and I contributions vanish), but the first `compute` after `reset()`
does not: `reset()` fails to clear `last_error`, so with
`deriv_enabled` the derivative term `kd*(error - last_error)/dt =
1*((-1) - 1)/1 = -2` survives, and the call returns `-2 ≠ 0`. -/
theorem first_compute_after_reset_keeps_derivative :
    (demoController.compute 0 1).1 = Except.ok 0
    ∧ (((demoController.compute 0 1).2.reset).compute 2 1).1 = Except.ok (-2) := by
  refine ⟨?_, ?_⟩ <;>
    norm_num [demoController, negWindupController, invalidLimitsController, PIDController.mkDefault, PIDController.init, PIDController.compute, PIDController.reset, PIDController.computeSeq, max_def, min_def]

/-- C3 counterexample: with the windup limit fixed at `-1` (reachable
through the `windup_limit` property setter) and the integral term
enabled, a single `compute(0, 1)` call leaves the accumulator at `1`,
whose absolute value exceeds the windup limit. -/
theorem negative_windup_limit_violates_bound :
    negWindupController.integ_enabled = true
    ∧ ¬ |(negWindupController.computeSeq [(0, 1)]).integral| ≤ negWindupController.windup_limit := by
  refine ⟨rfl, ?_⟩
  have h1 : (negWindupController.computeSeq [(0, 1)]).integral = 1 := by
    norm_num [demoController, negWindupController, invalidLimitsController, PIDController.mkDefault, PIDController.init, PIDController.compute, PIDController.reset, PIDController.computeSeq, max_def, min_def]
  have h2 : negWindupController.windup_limit = -1 := rfl
  rw [h1, h2]
  norm_num

/-- C3 amended: for every finite nonempty sequence of `compute` calls
with the integral term enabled and a `nonnegative` windup limit (held
fixed), after every call the absolute value of the integral accumulator
is at most `windup_limit` (clamping at pid.py line 163). -/
theorem integral_bounded_by_windup_limit (s : PIDController) (calls : List (ℚ × ℚ)) :
    s.integ_enabled = true → 0 ≤ s.windup_limit → calls ≠ [] →
    |(s.computeSeq calls).integral| ≤ s.windup_limit := by
  induction calls generalizing s with
  | nil => exact fun _ _ hne => absurd rfl hne
  | cons c cs ih =>
    intro hi hw _
    rw [PIDController.computeSeq_cons]
    rcases eq_or_ne cs [] with hcs | hcs
    · subst hcs
      exact PIDController.compute_integral_bound s c.1 c.2 hi hw
    · have h1 := PIDController.compute_snd_integ_enabled s c.1 c.2
      have h2 := PIDController.compute_snd_windup_limit s c.1 c.2
      have h3 := ih ((s.compute c.1 c.2).2) (h1.trans hi) (by rw [h2]; exact hw) hcs
      rwa [h2] at h3

/-- C3 amended, witness: the default controller (integral enabled,
windup limit 100) after the call `compute(22, 1)` keeps its accumulator
within the limit. -/
theorem integral_bounded_witness :
    |(PIDController.mkDefault.computeSeq [(22, 1)]).integral|
      ≤ PIDController.mkDefault.windup_limit :=
  integral_bounded_by_windup_limit PIDController.mkDefault [(22, 1)] rfl
    (by norm_num [PIDController.mkDefault, PIDController.init]) (by simp)

/-- C4 counterexample: with inverted output limits
(`output_min = 1 > 0 = output_max`) `compute` returns `1`, which does
not lie within `[output_min, output_max]` — the clamp
`max(output_min, min(output_max, u))` only lands in the interval when
the bounds are ordered. -/
theorem inverted_output_limits_escape_interval :
    (invalidLimitsController.compute 0 1).1 = Except.ok 1
    ∧ ¬(invalidLimitsController.output_min ≤ (1 : ℚ)
        ∧ (1 : ℚ) ≤ invalidLimitsController.output_max) := by
  refine ⟨by norm_num [demoController, negWindupController, invalidLimitsController, PIDController.mkDefault, PIDController.init, PIDController.compute, PIDController.reset, PIDController.computeSeq, max_def, min_def], ?_⟩
  have h1 : invalidLimitsController.output_min = 1 := rfl
  have h2 : invalidLimitsController.output_max = 0 := rfl
  rw [h1, h2]
  norm_num

/-- C4 amended: whenever `output_min ≤ output_max`, every value
`compute` returns lies within `[output_min, output_max]`, for any
gains, enable flags, measured value and `dt` (pid.py line 171). -/
theorem compute_output_within_limits (s : PIDController) (m dt out : ℚ)
    (hlim : s.output_min ≤ s.output_max)
    (hok : (s.compute m dt).1 = Except.ok out) :
    s.output_min ≤ out ∧ out ≤ s.output_max := by
  obtain ⟨u, hu⟩ := PIDController.compute_fst_shape s m dt out hok
  subst hu
  exact ⟨le_max_left _ _, max_le hlim (min_le_left _ _)⟩

/-- C5 counterexample: on the two-stage plant with `K_h=100, K_p=0.5,
tau_h=1, tau_p=10` and `aggressiveness=1`, the code returns
`kp = (tau_h+tau_p)/(K*lam) = 11/(50*11) = 1/50 = 0.02`, which is not
within `0.001` of the claimed `kp ≈ 0.01818` (that value would be
`tau_p/(K*lam)`). -/
theorem autotune_two_pt1_kp_not_claimed_value :
    autotune_pid_from_two_pt1 defaultTwoPT1 1 = Except.ok (1/50, 1/11, 10/11)
    ∧ ¬ |(1 : ℚ)/50 - 1818/100000| ≤ 1/1000 := by
  constructor
  · norm_num [autotune_pid_from_two_pt1, defaultTwoPT1, TwoPT1ThermalPlant.init]
  · have h : (1 : ℚ)/50 - 1818/100000 = 91/50000 := by norm_num
    rw [h, abs_of_pos (by norm_num)]
    norm_num

/-- C5 amended: the two-stage autotuner on `K_h=100, K_p=0.5, tau_h=1,
tau_p=10, aggressiveness=1` uses `lam = 1*(1+10) = 11` and returns
exactly `kp = 1/50 = 0.02`, `ki = 1/11 ≈ 0.0909`, `kd = 10/11 ≈ 0.909`,
per the rule `kp = (tau_h+tau_p)/(K*lam)`, `ki = 1/lam`,
`kd = tau_h*tau_p/(tau_h+tau_p)` with `K = K_h*K_p = 50`. -/
theorem autotune_two_pt1_default_gains :
    autotune_pid_from_two_pt1 defaultTwoPT1 1 = Except.ok (1/50, 1/11, 10/11)
    ∧ (1 : ℚ) * (defaultTwoPT1.tau_h + defaultTwoPT1.tau_p) = 11
    ∧ |(1 : ℚ)/11 - 909/10000| ≤ 1/10000
    ∧ |(10 : ℚ)/11 - 909/1000| ≤ 1/1000 := by
  refine ⟨?_, ?_, ?_, ?_⟩
  · norm_num [autotune_pid_from_two_pt1, defaultTwoPT1, TwoPT1ThermalPlant.init]
  · norm_num [defaultTwoPT1, TwoPT1ThermalPlant.init]
  · have h : (1 : ℚ)/11 - 909/10000 = 1/110000 := by norm_num
    rw [h, abs_of_pos (by norm_num)]
    norm_num
  · have h : (10 : ℚ)/11 - 909/1000 = 1/11000 := by norm_num
    rw [h, abs_of_pos (by norm_num)]
    norm_num

/-- C6 counterexample: with strictly positive plant parameters
(`K = 1 > 0`, `tau = 10 > 0`) but `aggressiveness = 0`, the single-lag
tuner raises `ZeroDivisionError` (the divisor `K*lam` is zero at
autotune.py line 103) instead of returning a gain triple without
error. -/
theorem autotune_zero_aggressiveness_fails :
    autotune_pi_from_plant ⟨1, 10, 0⟩ 0 = Except.error PIDController.zeroDivMsg
    ∧ (0 : ℚ) < 1 ∧ (0 : ℚ) < 10 := by
  refine ⟨?_, by norm_num, by norm_num⟩
  norm_num [autotune_pi_from_plant]

/-- C6 amended: each tuner raises `ValueError` exactly when one of the
plant quantities it uses is ≤ 0 (`K` or `tau` for the single-lag tuner;
`K_h*K_p`, `tau_h` or `tau_p` for the two-stage tuner); and when those
are all positive and additionally `aggressiveness ≠ 0`, each returns a
gain triple without error. -/
theorem autotune_validation (K tau x t0 a0 tau_p K_p tau_h K_h agg : ℚ) :
    (autotune_pi_from_plant ⟨K, tau, x⟩ agg = Except.error valueErrMsg
      ↔ K ≤ 0 ∨ tau ≤ 0)
    ∧ (autotune_pid_from_two_pt1 (TwoPT1ThermalPlant.init t0 a0 tau_p K_p tau_h K_h) agg
        = Except.error valueErrMsg ↔ K_h * K_p ≤ 0 ∨ tau_h ≤ 0 ∨ tau_p ≤ 0)
    ∧ (0 < K → 0 < tau → agg ≠ 0 →
        ∃ g, autotune_pi_from_plant ⟨K, tau, x⟩ agg = Except.ok g)
    ∧ (0 < K_h * K_p → 0 < tau_h → 0 < tau_p → agg ≠ 0 →
        ∃ g, autotune_pid_from_two_pt1 (TwoPT1ThermalPlant.init t0 a0 tau_p K_p tau_h K_h) agg
          = Except.ok g) := by
  refine ⟨?_, ?_, ?_, ?_⟩
  · constructor
    · intro h
      by_contra hc
      simp only [autotune_pi_from_plant] at h
      rw [if_neg hc] at h
      split_ifs at h
      · exact zeroDiv_ne_valueErr (Except.error.inj h)
      · exact zeroDiv_ne_valueErr (Except.error.inj h)
    · intro h
      simp only [autotune_pi_from_plant]
      rw [if_pos h]
  · constructor
    · intro h
      by_contra hc
      simp only [autotune_pid_from_two_pt1, TwoPT1ThermalPlant.init] at h
      rw [if_neg hc] at h
      split_ifs at h
      · exact zeroDiv_ne_valueErr (Except.error.inj h)
      · exact zeroDiv_ne_valueErr (Except.error.inj h)
      · exact zeroDiv_ne_valueErr (Except.error.inj h)
    · intro h
      simp only [autotune_pid_from_two_pt1, TwoPT1ThermalPlant.init]
      rw [if_pos h]
  · intro hK htau hagg
    have hguard : ¬(K ≤ 0 ∨ tau ≤ 0) := by push_neg; exact ⟨hK, htau⟩
    have hlam : tau * agg ≠ 0 := mul_ne_zero (ne_of_gt htau) hagg
    have hKlam : K * (tau * agg) ≠ 0 := mul_ne_zero (ne_of_gt hK) hlam
    simp only [autotune_pi_from_plant]
    simp only [if_neg hguard, if_neg hKlam, if_neg hlam]
    exact ⟨_, rfl⟩
  · intro hK htauh htaup hagg
    have hguard : ¬(K_h * K_p ≤ 0 ∨ tau_h ≤ 0 ∨ tau_p ≤ 0) := by
      push_neg
      exact ⟨hK, htauh, htaup⟩
    have hsum : 0 < tau_h + tau_p := by linarith
    have hlam : agg * (tau_h + tau_p) ≠ 0 := mul_ne_zero hagg (ne_of_gt hsum)
    have hKlam : K_h * K_p * (agg * (tau_h + tau_p)) ≠ 0 := mul_ne_zero (ne_of_gt hK) hlam
    simp only [autotune_pid_from_two_pt1, TwoPT1ThermalPlant.init]
    simp only [if_neg hguard, if_neg hKlam, if_neg hlam, if_neg (ne_of_gt hsum)]
    exact ⟨_, rfl⟩

/-- C6 amended, witness: for `K = 1, tau = 10, aggressiveness = 1` the
`ValueError` characterisation holds and the single-lag tuner returns a
gain triple; the two-stage tuner at the orchestrator defaults does
too. -/
theorem autotune_validation_witness :
    (autotune_pi_from_plant ⟨1, 10, 0⟩ 1 = Except.error valueErrMsg
      ↔ (1 : ℚ) ≤ 0 ∨ (10 : ℚ) ≤ 0)
    ∧ (∃ g, autotune_pi_from_plant ⟨1, 10, 0⟩ 1 = Except.ok g)
    ∧ (∃ g, autotune_pid_from_two_pt1 (TwoPT1ThermalPlant.init 22 20 10 (1/2) 1 100) 1
        = Except.ok g) := by
  refine ⟨(autotune_validation 1 10 0 22 20 10 (1/2) 1 100 1).1, ?_, ?_⟩
  · exact (autotune_validation 1 10 0 22 20 10 (1/2) 1 100 1).2.2.1
      (by norm_num) (by norm_num) (by norm_num)
  · exact (autotune_validation 1 10 0 22 20 10 (1/2) 1 100 1).2.2.2
      (by norm_num) (by norm_num) (by norm_num) (by norm_num)

/-- C7: no update validates `dt`.  With `dt = -1` every plant variant
and the controller's `compute` complete normally and update state: the
first-order plant moves to `x = -1/10`, the thermal plant reports
`22.1 °C`, the two-PT1 plant reports `24.7 °C`, and `compute` returns
`0` having pushed the integral accumulator to `22` — no fatal error
anywhere. -/
theorem dt_nonpositive_completes_normally :
    (FirstOrderPlant.update ⟨1, 10, 0⟩ 1 (-1)).1 = Except.ok (-1/10)
    ∧ (FirstOrderPlant.update ⟨1, 10, 0⟩ 1 (-1)).2.x = -1/10
    ∧ (ThermalPlant.update (ThermalPlant.init 22 20 10 1) 1 (-1)).1 = Except.ok (221/10)
    ∧ (TwoPT1ThermalPlant.update defaultTwoPT1 (1/2) (-1)).1 = Except.ok (247/10)
    ∧ (PIDController.mkDefault.compute 22 (-1)).1 = Except.ok 0
    ∧ (PIDController.mkDefault.compute 22 (-1)).2.integral = 22 := by
  refine ⟨?_, ?_, ?_, ?_, ?_, ?_⟩ <;>
    norm_num [FirstOrderPlant.update, ThermalPlant.update, ThermalPlant.init,
      TwoPT1ThermalPlant.update, defaultTwoPT1, TwoPT1ThermalPlant.init,
      PIDController.mkDefault, PIDController.init, PIDController.compute,
      max_def, min_def]

/-- C8: on a publish tick (`now ≥ next_opcua_update`) the
over-temperature alarm is triggered exactly when
`temperature > setpoint + 5`, and on a non-publish iteration it is
never triggered: the alarm is level-triggered per publish tick. -/
theorem overtemp_alarm_level_triggered (now next_upd temp sp : ℚ) :
    (publishTick now next_upd = true →
      (alarmTriggered now next_upd temp sp = true ↔ sp + 5 < temp))
    ∧ (publishTick now next_upd = false →
      alarmTriggered now next_upd temp sp = false) := by
  constructor
  · intro hp
    simp [alarmTriggered, hp, overtempCheck]
  · intro hp
    simp [alarmTriggered, hp]

/-- C8 witness: at `now = 1 ≥ 0 = next_opcua_update`, temperature 30
and setpoint 20 trigger the alarm; at `now = 1 < 2 = next_opcua_update`
the same temperature does not. -/
theorem overtemp_alarm_witness :
    alarmTriggered 1 0 30 20 = true ∧ alarmTriggered 1 2 30 20 = false := by
  constructor
  · exact ((overtemp_alarm_level_triggered 1 0 30 20).1 (by norm_num [publishTick])).mpr
      (by norm_num)
  · exact (overtemp_alarm_level_triggered 1 2 30 20).2 (by norm_num [publishTick])

/-- C9: with the integral term disabled, the accumulator read by
`compute` is left untouched by any finite sequence of `compute` calls
(pid.py lines 161-164 only run when `integ_enabled`). -/
theorem integral_frame_when_disabled (s : PIDController) (calls : List (ℚ × ℚ)) :
    s.integ_enabled = false → (s.computeSeq calls).integral = s.integral := by
  induction calls generalizing s with
  | nil => exact fun _ => rfl
  | cons c cs ih =>
    intro hi
    rw [PIDController.computeSeq_cons,
      ih _ ((PIDController.compute_snd_integ_enabled s c.1 c.2).trans hi),
      PIDController.compute_snd_integral, hi]
    simp

/-- C9 witness: a controller with the integral term disabled keeps its
zero accumulator across the calls `compute(5, 1)` then `compute(7, 2)`. -/
theorem integral_frame_witness :
    ((PIDController.init 0 0 0 0 true false false 100 0 100).computeSeq
      [(5, 1), (7, 2)]).integral
      = (PIDController.init 0 0 0 0 true false false 100 0 100).integral :=
  integral_frame_when_disabled _ _ rfl

/-- C10: the `windup_limit` property setter — the write path the OPC UA
datachange handler uses for the `windup` node — stores the written
value unchanged, while the `set_windup_limit` method stores its
absolute value; so a negative `v` is stored as `v` via the property and
as `-v` via the method. -/
theorem windup_limit_write_paths (s : PIDController) (v : ℚ) :
    (datachange s PIDParam.windup (OPCValue.num v)).windup_limit = v
    ∧ (s.windup_limit_set v).windup_limit = v
    ∧ (v < 0 → (s.set_windup_limit v).windup_limit = -v) := by
  refine ⟨rfl, rfl, ?_⟩
  intro hv
  simp [PIDController.set_windup_limit, PIDController.windup_limit_set, abs_of_neg hv]

/-- C10 witness: writing `-3` through the property (the datachange
path) stores `-3`, while `set_windup_limit(-3)` stores `3`. -/
theorem windup_limit_write_paths_witness :
    (datachange PIDController.mkDefault PIDParam.windup (OPCValue.num (-3))).windup_limit = -3
    ∧ (PIDController.mkDefault.set_windup_limit (-3)).windup_limit = 3 := by
  refine ⟨(windup_limit_write_paths PIDController.mkDefault (-3)).1, ?_⟩
  have h := (windup_limit_write_paths PIDController.mkDefault (-3)).2.2 (by norm_num)
  rw [h]
  norm_num

/-- C4 amended, witness: the default controller returns `0` on
`compute(22, 1)`, and `0` lies within its output limits `[0, 100]`. -/
theorem compute_output_within_limits_witness :
    PIDController.mkDefault.output_min ≤ (0 : ℚ)
    ∧ (0 : ℚ) ≤ PIDController.mkDefault.output_max :=
  compute_output_within_limits PIDController.mkDefault 22 1 0
    (by norm_num [PIDController.mkDefault, PIDController.init])
    (by norm_num [demoController, negWindupController, invalidLimitsController, PIDController.mkDefault, PIDController.init, PIDController.compute, PIDController.reset, PIDController.computeSeq, max_def, min_def])

end VirtualAssets
